import Mathlib

/-!
Verification of the task-state registry and background scraping job model of
the `techchallenge` repository (src/utils/estado.py, src/utils/gerar_aquivo.py,
src/scripts/web_scraping_api.py, src/models/scraping_model.py).

Python dictionaries are modelled as association lists in insertion order
(keys unique in actual use); Python lists held by reference are modelled by an
explicit store of lists addressed by natural numbers, so that the difference
between a shallow `dict.copy()` (which shares the nested list reference) and a
deep copy is expressible.  Selenium pages are modelled as explicit page values;
element lookups that may raise are modelled as `Option`s.
-/

/-- A Python value stored in one field of a product record: the source mixes
strings, ints and `None` in the same dict slot. -/
inductive Campo where
  | str : String → Campo
  | int : Int → Campo
  | nil : Campo
deriving DecidableEq, Repr

/-- Extracted product record: the dict built by
`WebScraperComPaginacao.extrair_informacoes`. -/
structure Produto where
  url : String
  titulo : Campo
  descricao : Campo
  preco : Campo
  rating : Campo
  disponibilidade : Campo
  categoria : Campo
  imagem_url : Campo
deriving DecidableEq, Repr

/-- One task record of `tarefas_estado` (src/utils/estado.py).  The
`resultados` field holds a reference (store address) to a Python list, or
`none` for Python `None`. -/
structure TaskRec where
  status : String
  progresso : Int
  mensagem : String
  resultados : Option Nat
  erro : Option String
  timestamp_criacao : String
  timestamp_conclusao : Option String
deriving DecidableEq, Repr

/-- The shared state of estado.py: the `tarefas_estado` dict plus the store of
Python list objects that `resultados` fields may reference. -/
structure Registry where
  tarefas : List (String × TaskRec)
  store : List (List Produto)
deriving DecidableEq, Repr

/-- Python `d[k]` lookup (first matching key; keys are unique in practice). -/
def dictGet (d : List (String × TaskRec)) (k : String) : Option TaskRec :=
  match d with
  | [] => none
  | (k2, v) :: rest => if k2 = k then some v else dictGet rest k

/-- Python `d[k] = v`: replace in place if the key exists, else append. -/
def dictSet (d : List (String × TaskRec)) (k : String) (v : TaskRec) :
    List (String × TaskRec) :=
  match d with
  | [] => [(k, v)]
  | (k2, v2) :: rest =>
    if k2 = k then (k2, v) :: rest else (k2, v2) :: dictSet rest k v

/-- Python `del d[k]` (removes the first occurrence of the key). -/
def dictDel (d : List (String × TaskRec)) (k : String) :
    List (String × TaskRec) :=
  match d with
  | [] => []
  | (k2, v2) :: rest =>
    if k2 = k then rest else (k2, v2) :: dictDel rest k

/-- Dereference a store address; addresses produced by the code are always in
range. -/
def storeGetD (reg : Registry) (a : Nat) : List Produto :=
  reg.store[a]?.getD []

/-- The fresh record built by `criar_tarefa`. -/
def novaTarefa (now : String) : TaskRec :=
  { status := "aguardando"
    progresso := 0
    mensagem := "Aguardando início da execução..."
    resultados := none
    erro := none
    timestamp_criacao := now
    timestamp_conclusao := none }

/-- `criar_tarefa(tarefa_id)`: unconditionally assigns a fresh record to the
key (`tarefas_estado[tarefa_id] = {...}`); there is no duplicate check. -/
def criar_tarefa (reg : Registry) (tarefa_id : String) (now : String) :
    Registry :=
  { reg with tarefas := dictSet reg.tarefas tarefa_id (novaTarefa now) }

/-- The `**kwargs` passed to `atualizar_tarefa`: each field is absent from the
kwargs (`none`) or present with a value (which for `resultados`,
`erro`, `timestamp_conclusao` may itself be Python `None`). -/
structure TaskUpdate where
  status : Option String
  progresso : Option Int
  mensagem : Option String
  resultados : Option (Option Nat)
  erro : Option (Option String)
  timestamp_conclusao : Option (Option String)

/-- Python `dict.update(kwargs)` on a task record. -/
def mergeUpdate (r : TaskRec) (u : TaskUpdate) : TaskRec :=
  { status := u.status.getD r.status
    progresso := u.progresso.getD r.progresso
    mensagem := u.mensagem.getD r.mensagem
    resultados := u.resultados.getD r.resultados
    erro := u.erro.getD r.erro
    timestamp_criacao := r.timestamp_criacao
    timestamp_conclusao := u.timestamp_conclusao.getD r.timestamp_conclusao }

/-- `atualizar_tarefa(tarefa_id, **kwargs)`: merge if the id is present,
silently no-op otherwise. -/
def atualizar_tarefa (reg : Registry) (tarefa_id : String) (u : TaskUpdate) :
    Registry :=
  match dictGet reg.tarefas tarefa_id with
  | none => reg
  | some r =>
    { reg with tarefas := dictSet reg.tarefas tarefa_id (mergeUpdate r u) }

/-- Python `dict.copy()` is shallow: the top-level slots are duplicated but
the `resultados` slot still holds the same list reference (the same store
address). -/
def recordCopy (r : TaskRec) : TaskRec := r

/-- `obter_tarefa(tarefa_id)`: `tarefas_estado[tarefa_id].copy()` when
present, Python `None` otherwise. -/
def obter_tarefa (reg : Registry) (tarefa_id : String) : Option TaskRec :=
  (dictGet reg.tarefas tarefa_id).map recordCopy

/-- `obter_todas_tarefas()`: shallow copies of every record, keyed by id. -/
def obter_todas_tarefas (reg : Registry) : List (String × TaskRec) :=
  reg.tarefas.map (fun p => (p.1, recordCopy p.2))

/-- `limpar_concluidas()`: collect the keys whose status is exactly
`"concluido"`, delete each, return the count. -/
def limpar_concluidas (reg : Registry) : Registry × Nat :=
  let concluidas :=
    ((reg.tarefas.filter (fun p => p.2.status == "concluido")).map
      (fun p => p.1))
  ({ reg with tarefas := concluidas.foldl (fun d k => dictDel d k) reg.tarefas },
   concluidas.length)

/-- In-place mutation of the list referenced by a record's `resultados` slot
(what a caller does when it mutates the nested results sequence of a record
returned by `obter_tarefa`).  Mutating through a record with `resultados`
`None` touches nothing. -/
def mutateResults (reg : Registry) (r : TaskRec)
    (f : List Produto → List Produto) : Registry :=
  match r.resultados with
  | none => reg
  | some a => { reg with store := reg.store.set a (f (storeGetD reg a)) }

/-- The results sequence a holder of record `r` observes in registry state
`reg`: the dereferenced list, or `none` when `resultados` is Python `None`. -/
def resultadosView (reg : Registry) (r : TaskRec) : Option (List Produto) :=
  r.resultados.map (storeGetD reg)

/-- Status of an optional record, for stating endpoint-visible facts. -/
def statusOf (o : Option TaskRec) : Option String := o.map TaskRec.status

/-- Progress of an optional record. -/
def progressoOf (o : Option TaskRec) : Option Int := o.map TaskRec.progresso

/-- Error field of an optional record. -/
def erroOf (o : Option TaskRec) : Option (Option String) :=
  o.map TaskRec.erro

/-- Dereferenced results of an optional record. -/
def resultadosOf (reg : Registry) (o : Option TaskRec) :
    Option (Option (List Produto)) :=
  o.map (fun r => resultadosView reg r)

/-- One `li` element of the listing container.  `classes` is the value of
`get_attribute("class")` (`none` for a null attribute, which makes the Python
membership test raise and the item be skipped).  `anchorHref` is `none` when
`find_element(By.TAG_NAME, "a")` raises, `some h` when an anchor is found
with href `h` (`h = none` for a null href). -/
structure Item where
  classes : Option String
  anchorHref : Option (Option String)
deriving DecidableEq, Repr

/-- Python substring test `needle in hay`. -/
def strContains (hay needle : String) : Bool :=
  hay.toList.tails.any (fun t => needle.toList.isPrefixOf t)

/-- The body of the per-item loop of `extrair_linhas_da_pagina`: the href the
item contributes, or `none` when the item is skipped (pagination classes,
exception during the class test or anchor lookup, or falsy href). -/
def itemHref (it : Item) : Option String :=
  match it.classes with
  | none => none
  | some cls =>
    if strContains cls "pager" || strContains cls "next" ||
        strContains cls "current" || strContains cls "prev" then
      none
    else
      match it.anchorHref with
      | none => none
      | some none => none
      | some (some h) => if h = "" then none else some h

/-- `extrair_linhas_da_pagina(section_selector, li_selector)`: the container
argument is the `li` elements found inside the section, or `none` when the
bounded wait for the section times out — in which case the outer `except`
returns `[]`. -/
def extrair_linhas_da_pagina (container : Option (List Item)) : List String :=
  match container with
  | none => []
  | some linhas => linhas.filterMap itemHref

/-- Spec-side (from the spec's words, for the refinement claim about the Page
Extractor): an item is a pagination control when any of the literal tokens
`pager`, `next`, `current`, `prev` appears in its class attribute. -/
def spec_isPaginationControl (it : Item) : Bool :=
  match it.classes with
  | none => false
  | some cls =>
    strContains cls "pager" || strContains cls "next" ||
      strContains cls "current" || strContains cls "prev"

/-- Spec-side: the plain (non-control) items' first-anchor hrefs in document
order, each item skipped individually when its anchor lookup fails or yields
no usable href. -/
def spec_plainHrefs (items : List Item) : List String :=
  (items.filter (fun it => !spec_isPaginationControl it)).filterMap
    (fun it =>
      match it.anchorHref with
      | some (some h) => if h = "" then none else some h
      | _ => none)

/-- A loaded product page, as `extrair_informacoes` observes it; each field is
the outcome of the corresponding guarded element lookup (`none` = the lookup
raised / the element is missing). -/
structure ProductPage where
  h1 : Option String
  descParagrafo : Option String
  preco : Option String
  ratingClasses : Option String
  instockClasse : Option (Option String)
  categoria : Option String
  imagemSrc : Option (Option String)
deriving DecidableEq, Repr

/-- The `conversao` dict lookup `conversao.get(rating_texto, 0)`. -/
def conversaoRating (t : String) : Int :=
  if t = "Zero" then 0
  else if t = "One" then 1
  else if t = "Two" then 2
  else if t = "Three" then 3
  else if t = "Four" then 4
  else if t = "Five" then 5
  else 0

/-- Python `str.split()` on a class attribute (whitespace split, empty chunks
dropped; class attributes use plain spaces). -/
def pySplit (s : String) : List String :=
  (s.split (fun c => c = ' ')).filter (fun t => t ≠ "")

/-- `extrair_rating(url_detalhes)`: reads the class attribute of
`p.star-rating`, takes the second class token, maps it through `conversao`.
Any failure (element missing, fewer than two tokens) is caught and the method
returns Python `None` — it never raises. -/
def extrair_rating (page : ProductPage) : Option Int :=
  match page.ratingClasses with
  | none => none
  | some cls =>
    match (pySplit cls)[1]? with
    | none => none
    | some t => some (conversaoRating t)

/-- Python truthiness of an optional string (`if href:`): null and the empty
string are falsy. -/
def pyTruthyStr : Option String → Bool
  | none => false
  | some s => s ≠ ""

/-- The record `extrair_informacoes` builds for a page that did load: each
field independently guarded, with its "não encontrado" sentinel on failure.
The rating slot is assigned the return value of `extrair_rating` directly —
that method catches its own failures and returns `None`, so the `except`
branch that would write the rating sentinel never runs. -/
def extrairFromPage (url : String) (page : ProductPage) : Produto :=
  { url := url
    titulo :=
      match page.h1 with
      | some t => Campo.str t
      | none => Campo.str "Título não encontrado"
    descricao :=
      match page.descParagrafo with
      | some d => Campo.str d
      | none => Campo.str "Descrição não encontrado"
    preco :=
      match page.preco with
      | some p => Campo.str (p.replace "£" "")
      | none => Campo.str "Preço não encontrado"
    rating :=
      match extrair_rating page with
      | some n => Campo.int n
      | none => Campo.nil
    disponibilidade :=
      match page.instockClasse with
      | none => Campo.str "Disponibilidade não encontrada"
      | some c => if pyTruthyStr c then Campo.int 1 else Campo.int 0
    categoria :=
      match page.categoria with
      | some c => Campo.str c
      | none => Campo.str "Categoria não encontrada"
    imagem_url :=
      match page.imagemSrc with
      | none => Campo.str "Imagem não encontrada"
      | some none => Campo.nil
      | some (some s) => Campo.str s }

/-- `extrair_informacoes(url)`: Python `None` when loading the page itself
raises (outer catch-all), otherwise the guarded record. -/
def extrair_informacoes (detalhes : String → Option ProductPage)
    (url : String) : Option Produto :=
  (detalhes url).map (extrairFromPage url)

/-- One listing page as the walker observes it through the configured
selectors: the container's items (or `none` when the container never appears)
and the next-page element (`none` = not found, `some h` = found with href
`h`, itself `none` for a null href). -/
structure Pagina where
  container : Option (List Item)
  nextHref : Option (Option String)
deriving DecidableEq, Repr

/-- The site as seen through a fixed browser session and fixed selectors:
listing pages by URL, and detail pages by URL (`none` = the page fails to
load). -/
structure Site where
  listagem : String → Pagina
  detalhes : String → Option ProductPage

/-- Relative-href resolution in `verificar_proxima_pagina`:
`base_url = current_url.split("/catalogue/")[0]` then
`base_url + "/catalogue/" + href.replace("catalogue/", "")`. -/
def resolverHref (urlAtual h : String) : String :=
  if h.startsWith "http" then h
  else
    ((urlAtual.splitOn "/catalogue/").headD "") ++ "/catalogue/" ++
      (h.replace "catalogue/" "")

/-- `verificar_proxima_pagina(next_page_selector)`: Python `None` when the
element is absent (caught exception) or its href is falsy, otherwise the
resolved absolute URL. -/
def verificar_proxima_pagina (pag : Pagina) (urlAtual : String) :
    Option String :=
  match pag.nextHref with
  | none => none
  | some none => none
  | some (some h) => if h = "" then none else some (resolverHref urlAtual h)

/-- Result of a walk: the accumulated product records and the listing pages
visited, in order. -/
structure WalkResult where
  dados : List Produto
  visitadas : List String
deriving DecidableEq, Repr

/-- The `while` guard's cap part:
`max_paginas is None or pagina_numero <= max_paginas`, negated. -/
def capReached (max_paginas : Option Nat) (pagina_numero : Nat) : Bool :=
  match max_paginas with
  | none => false
  | some n => decide (n < pagina_numero)

/-- Loop of `processar_todas_paginas`.  `fuel` only bounds the otherwise
unbounded iteration for the purpose of definition; every exit the code takes
(no URL, cap reached, empty page) is represented explicitly. -/
def walkAux (site : Site) (max_paginas : Option Nat)
    (urlAtual : Option String) (pagina_numero : Nat) (acc : List Produto)
    (visitadas : List String) (fuel : Nat) : WalkResult :=
  match fuel with
  | 0 => ⟨acc, visitadas⟩
  | fuel + 1 =>
    match urlAtual with
    | none => ⟨acc, visitadas⟩
    | some url =>
      if capReached max_paginas pagina_numero then ⟨acc, visitadas⟩
      else if (extrair_linhas_da_pagina (site.listagem url).container).isEmpty
          then
        ⟨acc, visitadas ++ [url]⟩
      else
        walkAux site max_paginas
          (verificar_proxima_pagina (site.listagem url) url)
          (pagina_numero + 1)
          (acc ++ ((extrair_linhas_da_pagina
            (site.listagem url).container).filterMap
              (extrair_informacoes site.detalhes)))
          (visitadas ++ [url]) fuel

/-- `processar_todas_paginas(url_inicial, ..., max_paginas)`. -/
def processar_todas_paginas (site : Site) (url_inicial : String)
    (max_paginas : Option Nat) (fuel : Nat) : WalkResult :=
  walkAux site max_paginas (some url_inicial) 1 [] [] fuel

/-- `salvar_em_excel(resultados, ...)` as observed through its boolean return:
`False` for an empty result list ("Nenhum dado para salvar."), otherwise
`io_ok`, which stands for the folder/DataFrame/workbook I/O succeeding — the
function catches every exception and returns `False` instead of raising. -/
def salvar_em_excel (resultados : List Produto) (io_ok : Bool) : Bool :=
  if resultados.isEmpty then false else io_ok

/-- `salvar_em_csv(resultados, ...)`: same observable shape as the Excel
writer. -/
def salvar_em_csv (resultados : List Produto) (io_ok : Bool) : Bool :=
  if resultados.isEmpty then false else io_ok

/-- Which export writer `executar_scraper_background` called. -/
inductive ExportChoice where
  | excel : ExportChoice
  | csv : ExportChoice
deriving DecidableEq, Repr

/-- `ConfiguracaoScraper` (src/models/scraping_model.py). -/
structure ConfiguracaoScraper where
  url_inicial : String
  section_selector : String
  li_selector : String
  next_page_selector : String
  max_paginas : Option Nat
  driver_path : Option String
  salvar_excel : Bool
deriving DecidableEq, Repr

/-- Outcome of one background run: the final registry, which writer was
invoked (`none` when the run failed before the export step) and the writer's
boolean return, which the runner discards. -/
structure RunnerResult where
  reg : Registry
  escolha : Option ExportChoice
  exportOk : Option Bool

/-- The first `atualizar_tarefa` call of the runner. -/
def updEmProgresso : TaskUpdate :=
  { status := some "em_progresso"
    progresso := some 5
    mensagem := some "Iniciando scraper..."
    resultados := none
    erro := none
    timestamp_conclusao := none }

/-- `executar_scraper_background(tarefa_id, config)`.  `resultado` is the
outcome of constructing the driver and running the walk (`Except.error e`
when any exception with message `e` escapes them; both export writers catch
their own exceptions, so after the walk succeeds the success update always
runs).  The function itself is total: the outer catch-all never re-raises. -/
def executar_scraper_background (reg0 : Registry) (tarefa_id : String)
    (config : ConfiguracaoScraper) (resultado : Except String (List Produto))
    (io_ok : Bool) (now : String) : RunnerResult :=
  let reg1 := atualizar_tarefa reg0 tarefa_id updEmProgresso
  match resultado with
  | Except.error e =>
    ⟨atualizar_tarefa reg1 tarefa_id
      { status := some "erro"
        progresso := some 0
        mensagem := some ("Erro: " ++ e)
        resultados := some none
        erro := some (some e)
        timestamp_conclusao := some (some now) },
     none, none⟩
  | Except.ok resultados =>
    let escolha :=
      if config.salvar_excel && !resultados.isEmpty then ExportChoice.excel
      else ExportChoice.csv
    let ok :=
      match escolha with
      | ExportChoice.excel => salvar_em_excel resultados io_ok
      | ExportChoice.csv => salvar_em_csv resultados io_ok
    let addr := reg1.store.length
    let reg2 : Registry :=
      { tarefas := reg1.tarefas, store := reg1.store ++ [resultados] }
    let reg3 := atualizar_tarefa reg2 tarefa_id
      { status := some "concluido"
        progresso := some 100
        mensagem := some ("✓ Scraping concluído! " ++
          toString resultados.length ++ " produtos coletados.")
        resultados := some (some addr)
        erro := some none
        timestamp_conclusao := some (some now) }
    ⟨reg3, some escolha, some ok⟩

/-! Helper lemmas about the dict and store model. -/

theorem dictGet_dictSet_self (d : List (String × TaskRec)) (k : String)
    (v : TaskRec) : dictGet (dictSet d k v) k = some v := by
  induction d with
  | nil => simp [dictSet, dictGet]
  | cons p rest ih =>
    by_cases h : p.1 = k
    · simp [dictSet, dictGet, h]
    · simp [dictSet, dictGet, h, ih]

theorem dictGet_dictSet_ne (d : List (String × TaskRec)) (k k' : String)
    (v : TaskRec) (h : k' ≠ k) :
    dictGet (dictSet d k v) k' = dictGet d k' := by
  induction d with
  | nil => simp [dictSet, dictGet, Ne.symm h]
  | cons p rest ih =>
    by_cases hk : p.1 = k
    · simp [dictSet, dictGet, hk, Ne.symm h]
    · simp [dictSet, dictGet, hk, ih]

theorem atualizar_store (reg : Registry) (id : String) (u : TaskUpdate) :
    (atualizar_tarefa reg id u).store = reg.store := by
  unfold atualizar_tarefa
  cases dictGet reg.tarefas id <;> rfl

theorem dictGet_atualizar_self (reg : Registry) (id : String) (r : TaskRec)
    (u : TaskUpdate) (h : dictGet reg.tarefas id = some r) :
    dictGet (atualizar_tarefa reg id u).tarefas id
      = some (mergeUpdate r u) := by
  simp [atualizar_tarefa, h, dictGet_dictSet_self]

theorem list_getElem?_concat {α : Type} (l : List α) (a : α) :
    (l ++ [a])[l.length]? = some a := by
  induction l with
  | nil => rfl
  | cons x xs ih => simp

theorem list_getElem?_set_self {α : Type} (l : List α) (a : Nat) (x : α)
    (h : a < l.length) : (l.set a x)[a]? = some x := by
  induction l generalizing a with
  | nil => simp at h
  | cons y ys ih =>
    cases a with
    | zero => simp
    | succ a => simpa using ih a (by simpa using h)

/-! C1 -/

/-- Concrete product records for counterexamples and witnesses. -/
def p0 : Produto :=
  { url := "u0", titulo := Campo.str "t0", descricao := Campo.str "d0"
    preco := Campo.str "10.0", rating := Campo.int 3
    disponibilidade := Campo.int 1, categoria := Campo.str "c0"
    imagem_url := Campo.str "i0" }

/-- A second concrete product record. -/
def p1 : Produto := { p0 with url := "u1" }

/-- A completed task record whose `resultados` slot references store
address 0. -/
def recT : TaskRec :=
  { status := "concluido", progresso := 100, mensagem := "done"
    resultados := some 0, erro := none, timestamp_criacao := "T0"
    timestamp_conclusao := some "T1" }

/-- Registry with one completed task holding the one-element results list
`[p0]` at store address 0. -/
def regC1 : Registry := { tarefas := [("t", recT)], store := [[p0]] }

/-- C1 counterexample: `obter_tarefa` returns a shallow `.copy()`, not a deep
copy.  In `regC1`, `get("t")` returns the stored record (same results
reference); appending `p1` to the nested results sequence through the
returned record changes the results of the record held by the registry from
`[p0]` to `[p0, p1]`. -/
theorem C1_counterexample :
    obter_tarefa regC1 "t" = some recT ∧
    resultadosOf regC1 (dictGet regC1.tarefas "t") = some (some [p0]) ∧
    resultadosOf (mutateResults regC1 recT (fun l => l ++ [p1]))
        (dictGet (mutateResults regC1 recT (fun l => l ++ [p1])).tarefas "t")
      = some (some [p0, p1]) := by
  refine ⟨rfl, rfl, rfl⟩

/-- C1 (amended): for every task id present in the registry, `get(id)`
returns a shallow copy of the stored record — an equal record sharing the
nested results reference, so that mutating the results sequence through the
returned record is observed by the record held by the registry — and `get`
returns `None` for any id not present. -/
theorem C1_get_shallow (reg : Registry) (id : String) :
    (dictGet reg.tarefas id = none → obter_tarefa reg id = none) ∧
    ∀ r, dictGet reg.tarefas id = some r →
      obter_tarefa reg id = some r ∧
      ∀ a f, r.resultados = some a → a < reg.store.length →
        dictGet (mutateResults reg r f).tarefas id = some r ∧
        resultadosView (mutateResults reg r f) r
          = some (f (storeGetD reg a)) := by
  constructor
  · intro h
    simp [obter_tarefa, h]
  · intro r hr
    refine ⟨by simp [obter_tarefa, hr, recordCopy], ?_⟩
    intro a f ha hlt
    constructor
    · simp [mutateResults, ha, hr]
    · simp [mutateResults, resultadosView, ha, storeGetD,
        list_getElem?_set_self _ _ _ hlt]

/-- C1 witness: the shallow-copy theorem applied to the concrete registry
`regC1`. -/
theorem C1_get_shallow_witness :
    obter_tarefa regC1 "t" = some recT ∧
    dictGet (mutateResults regC1 recT (fun l => l ++ [p1])).tarefas "t"
      = some recT ∧
    resultadosView (mutateResults regC1 recT (fun l => l ++ [p1])) recT
      = some (storeGetD regC1 0 ++ [p1]) := by
  have h := (C1_get_shallow regC1 "t").2 recT (by decide)
  have h2 := h.2 0 (fun l => l ++ [p1]) (by decide) (by decide)
  exact ⟨h.1, h2.1, h2.2⟩

/-! C2 -/

/-- A pre-existing (completed) record for the duplicate-create scenario. -/
def recC2 : TaskRec :=
  { status := "concluido", progresso := 100, mensagem := "done"
    resultados := none, erro := none, timestamp_criacao := "T0"
    timestamp_conclusao := some "T1" }

/-- Registry already holding id `"dup"`. -/
def regC2 : Registry := { tarefas := [("dup", recC2)], store := [] }

/-- C2 counterexample: `criar_tarefa` has no duplicate check.  Creating id
`"dup"` while a record with that id is present does not fail — it replaces
the existing record with a fresh waiting one. -/
theorem C2_counterexample :
    dictGet regC2.tarefas "dup" = some recC2 ∧
    dictGet (criar_tarefa regC2 "dup" "T2").tarefas "dup"
      = some (novaTarefa "T2") ∧
    novaTarefa "T2" ≠ recC2 := by
  refine ⟨rfl, rfl, by decide⟩

/-- C2 (amended): `create(id)` always installs a fresh record with status
`aguardando` (waiting) and progress 0 under `id` — inserting when absent and
silently replacing the existing record when present, never failing — and
leaves every other id's record unchanged. -/
theorem C2_create_overwrites (reg : Registry) (id now : String) :
    dictGet (criar_tarefa reg id now).tarefas id = some (novaTarefa now) ∧
    (novaTarefa now).status = "aguardando" ∧
    (novaTarefa now).progresso = 0 ∧
    ∀ k, k ≠ id →
      dictGet (criar_tarefa reg id now).tarefas k = dictGet reg.tarefas k := by
  refine ⟨dictGet_dictSet_self _ _ _, rfl, rfl, ?_⟩
  intro k hk
  exact dictGet_dictSet_ne _ _ _ _ hk

/-- C2 witness: create over the occupied id `"dup"` in `regC2`. -/
theorem C2_create_overwrites_witness :
    dictGet (criar_tarefa regC2 "dup" "T2").tarefas "dup"
      = some (novaTarefa "T2") ∧
    dictGet (criar_tarefa regC2 "dup" "T2").tarefas "other"
      = dictGet regC2.tarefas "other" := by
  have h := C2_create_overwrites regC2 "dup" "T2"
  exact ⟨h.1, h.2.2.2 "other" (by decide)⟩

/-! C7 -/

theorem keys_nodup_inj (d : List (String × TaskRec))
    (h : (d.map Prod.fst).Nodup) (p q : String × TaskRec) (hp : p ∈ d)
    (hq : q ∈ d) (hk : p.1 = q.1) : p = q := by
  induction d with
  | nil => cases hp
  | cons a rest ih =>
    rw [List.map_cons, List.nodup_cons] at h
    rcases List.mem_cons.mp hp with hp1 | hp2 <;>
      rcases List.mem_cons.mp hq with hq1 | hq2
    · rw [hp1, hq1]
    · exfalso
      apply h.1
      have hm : q.1 ∈ rest.map Prod.fst := List.mem_map_of_mem Prod.fst hq2
      rw [hp1] at hk
      rw [← hk] at hm
      exact hm
    · exfalso
      apply h.1
      have hm : p.1 ∈ rest.map Prod.fst := List.mem_map_of_mem Prod.fst hp2
      rw [hq1] at hk
      rw [hk] at hm
      exact hm
    · exact ih h.2 hp2 hq2

theorem dictDel_eq_filter (d : List (String × TaskRec)) (k : String)
    (h : (d.map Prod.fst).Nodup) :
    dictDel d k = d.filter (fun p => !(p.1 == k)) := by
  induction d with
  | nil => rfl
  | cons a rest ih =>
    rw [List.map_cons, List.nodup_cons] at h
    by_cases hk : a.1 = k
    · simp only [dictDel, hk, if_pos rfl, List.filter_cons,
        beq_self_eq_true, Bool.not_true]
      simp only [ite_false, Bool.false_eq_true]
      symm
      apply List.filter_eq_self.mpr
      intro q hq
      simp only [Bool.not_eq_true', beq_eq_false_iff_ne, ne_eq]
      intro hqk
      apply h.1
      have hm : q.1 ∈ rest.map Prod.fst := List.mem_map_of_mem Prod.fst hq
      rw [hqk, ← hk] at hm
      exact hm
    · simp [dictDel, hk, ih h.2, List.filter_cons]

theorem nodup_keys_dictDel (d : List (String × TaskRec)) (k : String)
    (h : (d.map Prod.fst).Nodup) :
    ((dictDel d k).map Prod.fst).Nodup := by
  rw [dictDel_eq_filter d k h]
  exact h.sublist (List.Sublist.map Prod.fst (List.filter_sublist d))

theorem foldl_dictDel_eq_filter (ks : List String)
    (d : List (String × TaskRec)) (h : (d.map Prod.fst).Nodup) :
    ks.foldl (fun d2 k => dictDel d2 k) d
      = d.filter (fun p => !ks.contains p.1) := by
  induction ks generalizing d with
  | nil =>
    simp only [List.foldl_nil, List.contains, List.elem, Bool.not_false]
    symm
    exact List.filter_eq_self.mpr (fun q _ => rfl)
  | cons k ks ih =>
    rw [List.foldl_cons, ih (dictDel d k) (nodup_keys_dictDel d k h),
      dictDel_eq_filter d k h, List.filter_filter]
    apply List.filter_congr
    intro p _
    simp only [List.contains_cons, Bool.not_or, Bool.and_comm]

/-- Concrete registry with one record in each status, for witnesses. -/
def regC7 : Registry :=
  { tarefas :=
      [("a", { novaTarefa "T0" with status := "aguardando" }),
       ("b", { novaTarefa "T0" with status := "em_progresso", progresso := 5 }),
       ("c", { novaTarefa "T0" with status := "concluido", progresso := 100 }),
       ("d", { novaTarefa "T0" with status := "erro", erro := some "boom" })]
    store := [] }

/-- C7: `limpar_concluidas` removes exactly the records whose status string is
exactly `"concluido"` (completed), leaves every record of any other status —
`erro` (failed), `aguardando` (waiting), `em_progresso` (running) — in place,
and returns the number of records removed. -/
theorem C7_purge_completed (reg : Registry)
    (h : (reg.tarefas.map Prod.fst).Nodup) :
    (limpar_concluidas reg).1.tarefas
      = reg.tarefas.filter (fun p => !(p.2.status == "concluido")) ∧
    (limpar_concluidas reg).2
      = (reg.tarefas.filter (fun p => p.2.status == "concluido")).length ∧
    (limpar_concluidas reg).1.store = reg.store ∧
    ∀ p ∈ reg.tarefas, p.2.status ≠ "concluido" →
      p ∈ (limpar_concluidas reg).1.tarefas := by
  have hmain : (limpar_concluidas reg).1.tarefas
      = reg.tarefas.filter (fun p => !(p.2.status == "concluido")) := by
    show (((reg.tarefas.filter (fun p => p.2.status == "concluido")).map
        (fun p => p.1)).foldl (fun d2 k => dictDel d2 k) reg.tarefas)
      = reg.tarefas.filter (fun p => !(p.2.status == "concluido"))
    rw [foldl_dictDel_eq_filter _ _ h]
    apply List.filter_congr
    intro p hp
    by_cases hc : p.2.status = "concluido"
    · have hmem : p.1 ∈ (reg.tarefas.filter
          (fun q => q.2.status == "concluido")).map (fun q => q.1) :=
        List.mem_map.mpr ⟨p, List.mem_filter.mpr ⟨hp, by simp [hc]⟩, rfl⟩
      simp [hc, hmem]
    · have hnmem : ¬ p.1 ∈ (reg.tarefas.filter
          (fun q => q.2.status == "concluido")).map (fun q => q.1) := by
        intro hmem
        rcases List.mem_map.mp hmem with ⟨q, hq, hq1⟩
        rcases List.mem_filter.mp hq with ⟨hq2, hq3⟩
        have hpq : p = q := keys_nodup_inj reg.tarefas h p q hp hq2 hq1.symm
        rw [hpq] at hc
        exact hc (by simpa using hq3)
      simp [hc, hnmem]
  refine ⟨hmain, ?_, rfl, ?_⟩
  · show ((reg.tarefas.filter (fun p => p.2.status == "concluido")).map
        (fun p => p.1)).length = _
    rw [List.length_map]
  · intro p hp hpc
    rw [hmain]
    exact List.mem_filter.mpr ⟨hp, by simpa using hpc⟩

/-- C7 witness: purge on a registry holding one record per status removes
exactly the completed one and reports one removal. -/
theorem C7_purge_completed_witness :
    (limpar_concluidas regC7).1.tarefas
      = regC7.tarefas.filter (fun p => !(p.2.status == "concluido")) ∧
    (limpar_concluidas regC7).2
      = (regC7.tarefas.filter (fun p => p.2.status == "concluido")).length ∧
    (limpar_concluidas regC7).1.store = regC7.store ∧
    ∀ p ∈ regC7.tarefas, p.2.status ≠ "concluido" →
      p ∈ (limpar_concluidas regC7).1.tarefas :=
  C7_purge_completed regC7 (by decide)

/-! Helper lemmas about the background runner's two registry updates. -/

theorem runner_error_record (reg0 : Registry) (id : String)
    (config : ConfiguracaoScraper) (e now : String) (io_ok : Bool)
    (r0 : TaskRec) (hid : dictGet reg0.tarefas id = some r0) :
    dictGet (executar_scraper_background reg0 id config
        (Except.error e) io_ok now).reg.tarefas id
      = some { status := "erro", progresso := 0, mensagem := "Erro: " ++ e
               resultados := none, erro := some e
               timestamp_criacao := r0.timestamp_criacao
               timestamp_conclusao := some now } := by
  have h1 := dictGet_atualizar_self reg0 id r0 updEmProgresso hid
  have h2 := dictGet_atualizar_self (atualizar_tarefa reg0 id updEmProgresso)
    id (mergeUpdate r0 updEmProgresso)
    { status := some "erro", progresso := some 0
      mensagem := some ("Erro: " ++ e), resultados := some none
      erro := some (some e), timestamp_conclusao := some (some now) } h1
  simp only [executar_scraper_background]
  rw [h2]
  simp [mergeUpdate, updEmProgresso]

theorem runner_success_record (reg0 : Registry) (id : String)
    (config : ConfiguracaoScraper) (res : List Produto) (io_ok : Bool)
    (now : String) (r0 : TaskRec) (hid : dictGet reg0.tarefas id = some r0) :
    dictGet (executar_scraper_background reg0 id config
        (Except.ok res) io_ok now).reg.tarefas id
      = some { status := "concluido", progresso := 100
               mensagem := "✓ Scraping concluído! " ++ toString res.length ++
                 " produtos coletados."
               resultados := some reg0.store.length
               erro := none
               timestamp_criacao := r0.timestamp_criacao
               timestamp_conclusao := some now } ∧
    (executar_scraper_background reg0 id config
        (Except.ok res) io_ok now).reg.store = reg0.store ++ [res] := by
  have h1 := dictGet_atualizar_self reg0 id r0 updEmProgresso hid
  have hst : (atualizar_tarefa reg0 id updEmProgresso).store = reg0.store :=
    atualizar_store reg0 id updEmProgresso
  have h2 := dictGet_atualizar_self
    { tarefas := (atualizar_tarefa reg0 id updEmProgresso).tarefas
      store := (atualizar_tarefa reg0 id updEmProgresso).store ++ [res] }
    id (mergeUpdate r0 updEmProgresso)
    { status := some "concluido", progresso := some 100
      mensagem := some ("✓ Scraping concluído! " ++ toString res.length ++
        " produtos coletados.")
      resultados := some (some (atualizar_tarefa reg0 id
        updEmProgresso).store.length)
      erro := some none, timestamp_conclusao := some (some now) } h1
  constructor
  · simp only [executar_scraper_background]
    rw [h2]
    simp [mergeUpdate, updEmProgresso, hst, atualizar_store]
  · simp only [executar_scraper_background]
    rw [atualizar_store, hst]

theorem runner_escolha (reg0 : Registry) (id : String)
    (config : ConfiguracaoScraper) (res : List Produto) (io_ok : Bool)
    (now : String) :
    (executar_scraper_background reg0 id config
        (Except.ok res) io_ok now).escolha
      = some (if config.salvar_excel && !res.isEmpty then ExportChoice.excel
          else ExportChoice.csv) := rfl

theorem runner_exportOk (reg0 : Registry) (id : String)
    (config : ConfiguracaoScraper) (res : List Produto) (io_ok : Bool)
    (now : String) :
    (executar_scraper_background reg0 id config
        (Except.ok res) io_ok now).exportOk
      = some (if res.isEmpty then false else io_ok) := by
  simp only [executar_scraper_background]
  cases hb : config.salvar_excel && !res.isEmpty <;>
    simp [hb, salvar_em_excel, salvar_em_csv]

/-! C4 -/

/-- C4: for every exception (message `e`) raised while constructing the
driver or running the walk, the Job Runner catches it — it is a total
function of the outcome, never re-raising to the dispatcher — and the task's
record ends with status `erro` (failed), the `erro` field holding the
exception's message verbatim, `resultados` still Python `None`, and progress
reset to 0. -/
theorem C4_job_failure (reg0 : Registry) (id : String)
    (config : ConfiguracaoScraper) (e now : String) (io_ok : Bool)
    (r0 : TaskRec) (hid : dictGet reg0.tarefas id = some r0) :
    statusOf (dictGet (executar_scraper_background reg0 id config
        (Except.error e) io_ok now).reg.tarefas id) = some "erro" ∧
    erroOf (dictGet (executar_scraper_background reg0 id config
        (Except.error e) io_ok now).reg.tarefas id) = some (some e) ∧
    resultadosOf (executar_scraper_background reg0 id config
        (Except.error e) io_ok now).reg
      (dictGet (executar_scraper_background reg0 id config
        (Except.error e) io_ok now).reg.tarefas id) = some none ∧
    progressoOf (dictGet (executar_scraper_background reg0 id config
        (Except.error e) io_ok now).reg.tarefas id) = some 0 := by
  have h := runner_error_record reg0 id config e now io_ok r0 hid
  rw [h]
  simp [statusOf, erroOf, progressoOf, resultadosOf, resultadosView]

/-- Registry used as the pre-state of the runner scenarios: one waiting
task `"t"`. -/
def regB : Registry := { tarefas := [("t", novaTarefa "T0")], store := [] }

/-- A concrete scrape configuration with the spreadsheet option set. -/
def cfgX : ConfiguracaoScraper :=
  { url_inicial := "https://books.toscrape.com/index.html"
    section_selector := "section"
    li_selector := "li.col-xs-6.col-sm-4.col-md-3.col-lg-3"
    next_page_selector := "ul.pager li.next a"
    max_paginas := some 5
    driver_path := none
    salvar_excel := true }

/-- C4 witness: a failing run over `regB`. -/
theorem C4_job_failure_witness :
    statusOf (dictGet (executar_scraper_background regB "t" cfgX
        (Except.error "boom") true "T1").reg.tarefas "t") = some "erro" ∧
    erroOf (dictGet (executar_scraper_background regB "t" cfgX
        (Except.error "boom") true "T1").reg.tarefas "t")
      = some (some "boom") ∧
    resultadosOf (executar_scraper_background regB "t" cfgX
        (Except.error "boom") true "T1").reg
      (dictGet (executar_scraper_background regB "t" cfgX
        (Except.error "boom") true "T1").reg.tarefas "t") = some none ∧
    progressoOf (dictGet (executar_scraper_background regB "t" cfgX
        (Except.error "boom") true "T1").reg.tarefas "t") = some 0 :=
  C4_job_failure regB "t" cfgX "boom" "T1" true (novaTarefa "T0") rfl

/-! C6 -/

/-- C6 counterexample: the writer is not selected by the configuration's
export-format choice alone.  With the spreadsheet option set (`cfgX`) but an
empty result list, the runner calls the delimited-text (CSV) writer, because
the source condition is `if config.salvar_excel and resultados:`. -/
theorem C6_counterexample :
    cfgX.salvar_excel = true ∧
    (executar_scraper_background regB "t" cfgX (Except.ok []) true
        "T1").escolha = some ExportChoice.csv := ⟨rfl, rfl⟩

/-- C6 (amended): for every successful walk, the runner hands the records to
the spreadsheet writer exactly when the spreadsheet option is set AND the
result list is non-empty, and to the delimited-text writer otherwise (in
particular whenever the results are empty); it then marks the task
`concluido` with progress 100 and the full result set attached. -/
theorem C6_export_selection (reg0 : Registry) (id : String)
    (config : ConfiguracaoScraper) (res : List Produto) (io_ok : Bool)
    (now : String) (r0 : TaskRec)
    (hid : dictGet reg0.tarefas id = some r0) :
    (executar_scraper_background reg0 id config
        (Except.ok res) io_ok now).escolha
      = some (if config.salvar_excel && !res.isEmpty then ExportChoice.excel
          else ExportChoice.csv) ∧
    statusOf (dictGet (executar_scraper_background reg0 id config
        (Except.ok res) io_ok now).reg.tarefas id) = some "concluido" ∧
    progressoOf (dictGet (executar_scraper_background reg0 id config
        (Except.ok res) io_ok now).reg.tarefas id) = some 100 ∧
    resultadosOf (executar_scraper_background reg0 id config
        (Except.ok res) io_ok now).reg
      (dictGet (executar_scraper_background reg0 id config
        (Except.ok res) io_ok now).reg.tarefas id) = some (some res) := by
  have h := runner_success_record reg0 id config res io_ok now r0 hid
  refine ⟨runner_escolha reg0 id config res io_ok now, ?_, ?_, ?_⟩
  · rw [h.1]; rfl
  · rw [h.1]; rfl
  · rw [h.1]
    simp [resultadosOf, resultadosView, storeGetD, h.2, list_getElem?_concat]

/-- C6 witness: a successful non-empty run over `regB` with `cfgX`. -/
theorem C6_export_selection_witness :
    (executar_scraper_background regB "t" cfgX
        (Except.ok [p0]) true "T1").escolha
      = some (if cfgX.salvar_excel && !(([p0] : List Produto).isEmpty)
          then ExportChoice.excel else ExportChoice.csv) ∧
    statusOf (dictGet (executar_scraper_background regB "t" cfgX
        (Except.ok [p0]) true "T1").reg.tarefas "t") = some "concluido" ∧
    progressoOf (dictGet (executar_scraper_background regB "t" cfgX
        (Except.ok [p0]) true "T1").reg.tarefas "t") = some 100 ∧
    resultadosOf (executar_scraper_background regB "t" cfgX
        (Except.ok [p0]) true "T1").reg
      (dictGet (executar_scraper_background regB "t" cfgX
        (Except.ok [p0]) true "T1").reg.tarefas "t") = some (some [p0]) :=
  C6_export_selection regB "t" cfgX [p0] true "T1" (novaTarefa "T0") rfl

/-! C10 -/

/-- C10: the Job Runner discards the export writers' boolean outcome.  When
the walk succeeds, the final registry state does not depend on whether the
underlying write I/O succeeds; both writers return `False` (never raise) on
an empty record list or on any internal write failure, yet the task is still
marked `concluido` with progress 100 and an empty `erro` field. -/
theorem C10_export_outcome_ignored (reg0 : Registry) (id : String)
    (config : ConfiguracaoScraper) (res : List Produto) (now : String)
    (r0 : TaskRec) (io_ok : Bool)
    (hid : dictGet reg0.tarefas id = some r0) :
    (executar_scraper_background reg0 id config (Except.ok res) io_ok now).reg
      = (executar_scraper_background reg0 id config
          (Except.ok res) true now).reg ∧
    salvar_em_excel res false = false ∧
    salvar_em_csv res false = false ∧
    salvar_em_excel [] io_ok = false ∧
    salvar_em_csv [] io_ok = false ∧
    (res.isEmpty →
      (executar_scraper_background reg0 id config
          (Except.ok res) io_ok now).exportOk = some false) ∧
    statusOf (dictGet (executar_scraper_background reg0 id config
        (Except.ok res) io_ok now).reg.tarefas id) = some "concluido" ∧
    progressoOf (dictGet (executar_scraper_background reg0 id config
        (Except.ok res) io_ok now).reg.tarefas id) = some 100 ∧
    erroOf (dictGet (executar_scraper_background reg0 id config
        (Except.ok res) io_ok now).reg.tarefas id) = some none := by
  have h := runner_success_record reg0 id config res io_ok now r0 hid
  refine ⟨rfl, by simp [salvar_em_excel], by simp [salvar_em_csv],
    rfl, rfl, ?_, ?_, ?_, ?_⟩
  · intro he
    simp [runner_exportOk, he]
  · rw [h.1]; rfl
  · rw [h.1]; rfl
  · rw [h.1]; rfl

/-- C10 witness: an empty-result run with failing I/O over `regB`. -/
theorem C10_export_outcome_ignored_witness :
    (executar_scraper_background regB "t" cfgX (Except.ok []) false "T1").reg
      = (executar_scraper_background regB "t" cfgX
          (Except.ok []) true "T1").reg ∧
    (executar_scraper_background regB "t" cfgX
        (Except.ok []) false "T1").exportOk = some false ∧
    statusOf (dictGet (executar_scraper_background regB "t" cfgX
        (Except.ok []) false "T1").reg.tarefas "t") = some "concluido" := by
  have h := C10_export_outcome_ignored regB "t" cfgX [] "T1"
    (novaTarefa "T0") false rfl
  exact ⟨h.1, h.2.2.2.2.2.1 rfl, h.2.2.2.2.2.2.1⟩

/-! C9 -/

theorem walkAux_visited_le (site : Site) (N : Nat) :
    ∀ (fuel : Nat) (url : Option String) (n : Nat) (acc : List Produto)
      (vis : List String),
      ((walkAux site (some N) url n acc vis fuel).visitadas).length
        ≤ vis.length + (N + 1 - n) := by
  intro fuel
  induction fuel with
  | zero =>
    intro url n acc vis
    simp [walkAux]
  | succ fuel ih =>
    intro url n acc vis
    cases url with
    | none => simp [walkAux]
    | some u =>
      rw [walkAux]
      by_cases hcap : capReached (some N) n = true
      · rw [if_pos hcap]
        simp
      · have hn : n ≤ N := by
          simp [capReached] at hcap
          omega
        rw [if_neg hcap]
        by_cases he :
            (extrair_linhas_da_pagina (site.listagem u).container).isEmpty
              = true
        · rw [if_pos he]
          simp
          omega
        · rw [if_neg he]
          calc ((walkAux site (some N)
                  (verificar_proxima_pagina (site.listagem u) u) (n + 1)
                  (acc ++ ((extrair_linhas_da_pagina
                    (site.listagem u).container).filterMap
                      (extrair_informacoes site.detalhes)))
                  (vis ++ [u]) fuel).visitadas).length
              ≤ (vis ++ [u]).length + (N + 1 - (n + 1)) := ih _ _ _ _
            _ ≤ vis.length + (N + 1 - n) := by
                simp
                omega

/-- C9: for every configured page cap N (including 0) and every site — in
particular sites whose every page offers a further next-page link — the
Pagination Walker visits at most N listing pages before returning the
accumulated records. -/
theorem C9_page_cap (site : Site) (N : Nat) (url_inicial : String)
    (fuel : Nat) :
    ((processar_todas_paginas site url_inicial (some N)
        fuel).visitadas).length ≤ N := by
  have h := walkAux_visited_le site N fuel (some url_inicial) 1 [] []
  simpa using h

/-! C3 -/

theorem walk_dados_empty_start (site : Site) (url : String)
    (m : Option Nat) (fuel : Nat)
    (hc : (site.listagem url).container = none) :
    (processar_todas_paginas site url m fuel).dados = [] := by
  rw [processar_todas_paginas]
  cases fuel with
  | zero => rfl
  | succ fuel =>
    rw [walkAux]
    by_cases hcap : capReached m 1 = true
    · rw [if_pos hcap]
    · rw [if_neg hcap,
        if_pos (by simp [extrair_linhas_da_pagina, hc])]

/-- C3: when the listing container never appears on the start page, the Page
Extractor's failure is treated as an empty page: the walk terminates
gracefully with zero records (no exception is modelled anywhere on this
path — every function involved is total), and the runner still marks the job
`concluido` with progress 100 and an attached empty result list, not
failed. -/
theorem C3_graceful_empty (site : Site) (config : ConfiguracaoScraper)
    (reg0 : Registry) (id now : String) (io_ok : Bool) (fuel : Nat)
    (r0 : TaskRec)
    (hc : (site.listagem config.url_inicial).container = none)
    (hid : dictGet reg0.tarefas id = some r0) :
    (processar_todas_paginas site config.url_inicial config.max_paginas
        fuel).dados = [] ∧
    statusOf (dictGet (executar_scraper_background reg0 id config
        (Except.ok (processar_todas_paginas site config.url_inicial
          config.max_paginas fuel).dados)
        io_ok now).reg.tarefas id) = some "concluido" ∧
    progressoOf (dictGet (executar_scraper_background reg0 id config
        (Except.ok (processar_todas_paginas site config.url_inicial
          config.max_paginas fuel).dados)
        io_ok now).reg.tarefas id) = some 100 ∧
    resultadosOf (executar_scraper_background reg0 id config
        (Except.ok (processar_todas_paginas site config.url_inicial
          config.max_paginas fuel).dados)
        io_ok now).reg
      (dictGet (executar_scraper_background reg0 id config
        (Except.ok (processar_todas_paginas site config.url_inicial
          config.max_paginas fuel).dados)
        io_ok now).reg.tarefas id) = some (some []) := by
  have hw := walk_dados_empty_start site config.url_inicial
    config.max_paginas fuel hc
  rw [hw]
  have h := runner_success_record reg0 id config [] io_ok now r0 hid
  refine ⟨rfl, ?_, ?_, ?_⟩
  · rw [h.1]; rfl
  · rw [h.1]; rfl
  · rw [h.1]
    simp [resultadosOf, resultadosView, storeGetD, h.2, list_getElem?_concat]

/-- A site whose start-page container never appears. -/
def siteVazio : Site :=
  { listagem := fun _ => { container := none, nextHref := none }
    detalhes := fun _ => none }

/-- C3 witness: the degenerate site over `regB` and `cfgX`. -/
theorem C3_graceful_empty_witness :
    (processar_todas_paginas siteVazio cfgX.url_inicial cfgX.max_paginas
        7).dados = [] ∧
    statusOf (dictGet (executar_scraper_background regB "t" cfgX
        (Except.ok (processar_todas_paginas siteVazio cfgX.url_inicial
          cfgX.max_paginas 7).dados)
        true "T1").reg.tarefas "t") = some "concluido" ∧
    progressoOf (dictGet (executar_scraper_background regB "t" cfgX
        (Except.ok (processar_todas_paginas siteVazio cfgX.url_inicial
          cfgX.max_paginas 7).dados)
        true "T1").reg.tarefas "t") = some 100 ∧
    resultadosOf (executar_scraper_background regB "t" cfgX
        (Except.ok (processar_todas_paginas siteVazio cfgX.url_inicial
          cfgX.max_paginas 7).dados)
        true "T1").reg
      (dictGet (executar_scraper_background regB "t" cfgX
        (Except.ok (processar_todas_paginas siteVazio cfgX.url_inicial
          cfgX.max_paginas 7).dados)
        true "T1").reg.tarefas "t") = some (some []) :=
  C3_graceful_empty siteVazio cfgX regB "t" "T1" true 7 (novaTarefa "T0")
    rfl rfl

/-! C5 -/

/-- A product page that loads but on which every target element lookup
fails. -/
def emptyPage : ProductPage :=
  { h1 := none, descParagrafo := none, preco := none, ratingClasses := none
    instockClasse := none, categoria := none, imagemSrc := none }

/-- C5 counterexample: on a page that loads with every target element
missing, the Detail Extractor returns a record — but the `rating` field is
Python `None`, not a sentinel string: `extrair_rating` catches its own
failure and returns `None`, so the sentinel branch for rating never runs. -/
theorem C5_counterexample :
    extrair_informacoes (fun _ => some emptyPage) "http://x"
      = some { url := "http://x"
               titulo := Campo.str "Título não encontrado"
               descricao := Campo.str "Descrição não encontrado"
               preco := Campo.str "Preço não encontrado"
               rating := Campo.nil
               disponibilidade := Campo.str "Disponibilidade não encontrada"
               categoria := Campo.str "Categoria não encontrada"
               imagem_url := Campo.str "Imagem não encontrada" } ∧
    (extrairFromPage "http://x" emptyPage).rating = Campo.nil ∧
    ∀ s : String, (extrairFromPage "http://x" emptyPage).rating
      ≠ Campo.str s := by
  refine ⟨rfl, rfl, ?_⟩
  intro s h
  simp [extrairFromPage, emptyPage, extrair_rating] at h

/-- C5 (amended): the Detail Extractor is total — it returns a record for
every page that loads (and Python `None` only when the page itself fails to
load) — and for every product page that loads with every target element
missing it returns a record in which every field except `rating` carries its
"não encontrado" sentinel string, while `rating` is Python `None` (the
rating sub-extractor returns `None` on failure instead of raising, so the
rating sentinel is never written). -/
theorem C5_detail_extractor (d : String → Option ProductPage) (url : String)
    (page : ProductPage) (hload : d url = some page) :
    extrair_informacoes d url = some (extrairFromPage url page) ∧
    (page = emptyPage →
      extrair_informacoes d url
        = some { url := url
                 titulo := Campo.str "Título não encontrado"
                 descricao := Campo.str "Descrição não encontrado"
                 preco := Campo.str "Preço não encontrado"
                 rating := Campo.nil
                 disponibilidade :=
                   Campo.str "Disponibilidade não encontrada"
                 categoria := Campo.str "Categoria não encontrada"
                 imagem_url := Campo.str "Imagem não encontrada" }) := by
  constructor
  · simp [extrair_informacoes, hload]
  · intro hp
    simp [extrair_informacoes, hload, hp, extrairFromPage, emptyPage,
      extrair_rating]

/-- C5 witness: the all-missing page at a concrete URL. -/
theorem C5_detail_extractor_witness :
    extrair_informacoes (fun _ => some emptyPage) "http://y"
      = some (extrairFromPage "http://y" emptyPage) ∧
    extrair_informacoes (fun _ => some emptyPage) "http://y"
      = some { url := "http://y"
               titulo := Campo.str "Título não encontrado"
               descricao := Campo.str "Descrição não encontrado"
               preco := Campo.str "Preço não encontrado"
               rating := Campo.nil
               disponibilidade := Campo.str "Disponibilidade não encontrada"
               categoria := Campo.str "Categoria não encontrada"
               imagem_url := Campo.str "Imagem não encontrada" } := by
  have h := C5_detail_extractor (fun _ => some emptyPage) "http://y"
    emptyPage rfl
  exact ⟨h.1, h.2 rfl⟩

/-! C8 -/

/-- C8: on a listing page whose items all expose a class attribute, mixing
pagination-control items (class attribute containing one of the tokens
`pager`, `next`, `current`, `prev`) with plain product items, the Page
Extractor returns exactly the plain items' first-anchor hrefs in document
order — items whose anchor lookup fails, or whose anchor has no usable
href, are skipped individually — and an empty list (never an error) when
nothing survives the filtering. -/
theorem C8_page_extractor (items : List Item)
    (hcls : ∀ it ∈ items, it.classes.isSome = true) :
    extrair_linhas_da_pagina (some items) = spec_plainHrefs items := by
  induction items with
  | nil => rfl
  | cons it rest ih =>
    have hit : it.classes.isSome = true := hcls it (List.mem_cons_self it rest)
    have hrest : ∀ x ∈ rest, x.classes.isSome = true :=
      fun x hx => hcls x (List.mem_cons_of_mem it hx)
    have ih2 := ih hrest
    simp only [extrair_linhas_da_pagina] at ih2 ⊢
    rcases Option.isSome_iff_exists.mp hit with ⟨cls, hcl⟩
    by_cases hctl : (strContains cls "pager" || strContains cls "next" ||
        strContains cls "current" || strContains cls "prev") = true
    · simp [List.filterMap_cons, itemHref, hcl, hctl, spec_plainHrefs,
        spec_isPaginationControl, List.filter_cons, ih2]
    · rcases hah : it.anchorHref with _ | ⟨_ | h⟩ <;>
        simp [List.filterMap_cons, itemHref, hcl, hctl, hah, spec_plainHrefs,
          spec_isPaginationControl, List.filter_cons, ih2]

/-- Concrete mixed listing: plain items, every pagination-control kind, a
null class attribute, a failed anchor lookup, a null href and an empty
href. -/
def itensMistos : List Item :=
  [{ classes := some "col-xs-6 col-sm-4", anchorHref := some (some "http://a") },
   { classes := some "pager", anchorHref := some (some "http://skip1") },
   { classes := some "col-xs-6", anchorHref := none },
   { classes := some "next", anchorHref := some (some "http://skip2") },
   { classes := some "col-sm-4", anchorHref := some (some "http://b") },
   { classes := some "current", anchorHref := some (some "http://skip3") },
   { classes := some "col-md-3", anchorHref := some none },
   { classes := some "prev", anchorHref := some (some "http://skip4") },
   { classes := some "col-lg-3", anchorHref := some (some "") },
   { classes := some "col-xs-6", anchorHref := some (some "http://c") }]

/-- C8 witness: the mixed listing yields exactly the plain items' usable
hrefs in document order. -/
theorem C8_page_extractor_witness :
    extrair_linhas_da_pagina (some itensMistos)
      = spec_plainHrefs itensMistos ∧
    extrair_linhas_da_pagina (some itensMistos)
      = ["http://a", "http://b", "http://c"] :=
  ⟨C8_page_extractor itensMistos (by decide), by decide⟩
